import Mathlib

/-!
Verification of the content-addressed artifact engine (`wandb.sdk.artifacts`).

This file shallowly embeds the `Artifact` aggregate of
`src/wandb/sdk/artifacts/artifact.py` and the cross-artifact storage handler
of `src/wandb/sdk/artifacts/storage_handlers/wb_artifact_handler.py`, and
proves properties of the embedded operations.

Modelling conventions:
* Python byte strings are `List Nat`; the local filesystem seen by an
  operation is a finite association list from (relative) path to bytes.
* `md5_file_b64` hashes a file's bytes.  The MD5 algorithm itself is out of
  scope; content hashing is modelled as an injective digest function, i.e. the
  collision-freeness idealization that content addressing assumes.
* Exceptions become `Except` values.  Mutating methods return the
  (possibly updated) artifact next to the `Except` result, mirroring a Python
  object that survives a raised exception; a method that raises before its
  first mutation returns the artifact unchanged.
* Network transports (GraphQL client, HTTP manifest fetch) are external
  collaborators; the data they deliver is passed in as explicit arguments.
-/

deriving instance DecidableEq for Except

/-- Bytes of a file. -/
abbrev Content := List Nat

/-- A base-64 MD5 content digest.  The hash function is modelled as an
injective function of the hashed bytes (see the file header). -/
abbrev Digest := List Nat

/-- Content hashing (`wandb.sdk.lib.hashutil.md5_file_b64`, not under `src/`):
modelled as an injective digest of the file's bytes. -/
def md5_file_b64 (c : Content) : Digest := c

/-- A local filesystem fragment: relative path to file bytes. -/
abbrev FS := List (String × Content)

/-- Lookup in an association list keyed by strings (Python `dict.get`). -/
def findKey {α : Type} : List (String × α) → String → Option α
  | [], _ => none
  | (p, v) :: rest, k => if p = k then some v else findKey rest k

/-- Insert-or-overwrite in an association list (Python `dict.__setitem__`). -/
def setKey {α : Type} : List (String × α) → String → α → List (String × α)
  | [], k, v => [(k, v)]
  | (p, w) :: rest, k, v =>
    if p = k then (k, v) :: rest else (p, w) :: setKey rest k v

/-- Number of bindings of one key in an association list. -/
def countKey {α : Type} (l : List (String × α)) (k : String) : Nat :=
  (l.filter (fun pv => pv.1 = k)).length

def dropLeadingSlashes : List Char → List Char
  | [] => []
  | c :: cs => if c = '/' then dropLeadingSlashes cs else c :: cs

/-- Modelled from the spec: `LogicalPath` (`wandb.sdk.lib.paths`, not under
`src/`) normalizes every path to forward-slash form with no leading slash
(spec section 3, Manifest). -/
def LogicalPath (s : String) : String := ⟨dropLeadingSlashes s.toList⟩

/-- Python `os.path.basename`: the part after the last slash. -/
def basename (s : String) : String :=
  ⟨s.toList.foldl (fun acc c => if c = '/' then [] else acc ++ [c]) []⟩

/-- Python `name.lstrip("/")`. -/
def lstripSlash (s : String) : String := ⟨dropLeadingSlashes s.toList⟩

def takeUntilColon : List Char → List Char
  | [] => []
  | c :: cs => if c = ':' then [] else c :: takeUntilColon cs

/-- Python `name.split(":")[0]`: the collection name of a
`{collection}:{version}` string. -/
def collectionName (s : String) : String := ⟨takeUntilColon s.toList⟩

/-- Modelled from the spec: `util.alias_is_version_index` (not under `src/`):
recognizes the reserved, implicit version-index aliases `v<N>` (spec
section 3). -/
def alias_is_version_index (s : String) : Bool :=
  match s.toList with
  | 'v' :: rest => rest ≠ [] && rest.all Char.isDigit
  | _ => false

/-- Modelled from the spec: `WBValue.with_suffix` (typed-value layer, outside
the core per spec section 1): appends a type-specific suffix when the name
does not already carry it (spec section 4.5, type-suffix search). -/
def withSuffix (name sfx : String) : String :=
  if sfx ≠ "" ∧ ¬ (sfx.toList.isSuffixOf name.toList) then name ++ sfx else name

/-- Modelled from the spec: `hashutil.hex_to_b64_id` (not under `src/`).  The
hex and base-64 renderings of one server id are inverse encodings of the same
identifier; the bijection is modelled as the identity on id strings. -/
def hex_to_b64_id (s : String) : String := s

/-- Modelled from the spec: `hashutil.b64_to_hex_id` (not under `src/`); see
`hex_to_b64_id`. -/
def b64_to_hex_id (s : String) : String := s

/-- The states of `wandb.sdk.artifacts.artifact_state.ArtifactState`. -/
inductive ArtifactState where
  | PENDING
  | COMMITTED
  | DELETED
deriving Repr, DecidableEq

/-- The exceptions the embedded operations can raise
(`wandb.sdk.artifacts.exceptions` and Python builtins). -/
inductive ArtifactError where
  | artifactFinalizedError
  | artifactNotLoggedError (attr : String)
  | valueError (msg : String)
  | keyError (path : String)
  | fileNotFoundError (path : String)
  | typeError (msg : String)
  | attributeError (msg : String)
  | assertionError
deriving Repr, DecidableEq

/-- A reference URI, represented structurally.  A cross-artifact URI
`wandb-artifact://<hexId>/<path>` is `.wandb hexId path`; every other URI
(http, s3, gs, file, ...) is `.external scheme body`, and no construction in
this file ever builds `.external "wandb-artifact" _`.  `urlparse(u).scheme`
becomes `RefURI.scheme`. -/
inductive RefURI where
  | wandb (hexId : String) (filePath : String)
  | external (scheme : String) (body : String)
deriving Repr, DecidableEq

def RefURI.scheme : RefURI → String
  | .wandb _ _ => "wandb-artifact"
  | .external s _ => s

/-- One addressable unit of an artifact
(`wandb.sdk.artifacts.artifact_manifest_entry.ArtifactManifestEntry`, not
under `src/`; fields per spec section 3).  `local_path` holds the staged
copy of the added file's bytes: the engine copies the source file into
read-only staging, so the staged bytes are a value independent of the source
file. -/
structure ArtifactManifestEntry where
  path : String
  digest : Digest
  size : Option Nat
  ref : Option RefURI
  local_path : Option Content
deriving Repr, DecidableEq

/-- The manifest: insertion-ordered, path-keyed entries
(`wandb.sdk.artifacts.artifact_manifest.ArtifactManifest`, not under
`src/`). -/
structure ArtifactManifest where
  entries : List (String × ArtifactManifestEntry)
deriving Repr, DecidableEq

/-- Modelled from the spec: `ArtifactManifest.add_entry` is not under `src/`.
Spec section 4.1: "`addEntry(entry)` fails if an entry already exists at that
path with a different digest (content mismatch), succeeds silently (no-op) if
identical (idempotent re-add)". -/
def ArtifactManifest.add_entry (m : ArtifactManifest) (e : ArtifactManifestEntry) :
    Except ArtifactError ArtifactManifest :=
  match findKey m.entries e.path with
  | some e0 =>
    if e0.digest = e.digest then .ok m
    else .error (.valueError ("Cannot add the same path twice: " ++ e.path))
  | none => .ok { entries := m.entries ++ [(e.path, e)] }

/-- `ArtifactManifest.get_entry_by_path` (not under `src/`): plain lookup. -/
def ArtifactManifest.get_entry_by_path (m : ArtifactManifest) (p : String) :
    Option ArtifactManifestEntry :=
  findKey m.entries p

/-- The `Artifact` aggregate: the attributes set in `Artifact.__init__`
(artifact.py lines 139-206) that the verified operations read or write.
Metadata is carried as a flat string map (its JSON normalization is
behavior-preserving for the claims below). -/
structure Artifact where
  _id : Option String
  _entity : Option String
  _project : Option String
  _name : String
  _version : Option String
  _source_entity : Option String
  _source_project : Option String
  _source_name : String
  _source_version : Option String
  _type : String
  _description : Option String
  _metadata : List (String × String)
  _aliases : List String
  _saved_aliases : List String
  _state : ArtifactState
  _manifest : ArtifactManifest
  _commit_hash : Option String
  _file_count : Option Nat
  _created_at : Option String
  _updated_at : Option String
  _final : Bool
  _added_local_paths : List (String × ArtifactManifestEntry)
deriving Repr, DecidableEq

/-- Characters admitted by the artifact-name pattern
`^[a-zA-Z0-9_\-.]+$` (artifact.py line 148). -/
def nameCharOk (c : Char) : Bool :=
  c.isAlphanum || c = '_' || c = '-' || c = '.'

/-- `Artifact.__init__` (artifact.py lines 139-206): validates name and type,
then builds a fresh draft. -/
def Artifact.init (name ty : String) (description : Option String)
    (metadata : List (String × String)) : Except ArtifactError Artifact :=
  if ¬ (name ≠ "" ∧ name.toList.all nameCharOk) then
    .error (.valueError ("Artifact name may only contain alphanumeric characters, dashes, underscores, and dots. Invalid name: " ++ name))
  else if ty = "job" ∨ "wandb-".toList.isPrefixOf ty.toList then
    .error (.valueError "Artifact types job and wandb-* are reserved for internal use. Please use a different type.")
  else
    .ok
      { _id := none
        _entity := none
        _project := none
        _name := name
        _version := none
        _source_entity := none
        _source_project := none
        _source_name := name
        _source_version := none
        _type := ty
        _description := description
        _metadata := metadata
        _aliases := ["latest"]
        _saved_aliases := []
        _state := ArtifactState.PENDING
        _manifest := { entries := [] }
        _commit_hash := none
        _file_count := none
        _created_at := none
        _updated_at := none
        _final := false
        _added_local_paths := [] }

/-- The `id` property (artifact.py lines 338-344): returns `None` on a
pending artifact, otherwise the asserted server id. -/
def Artifact.id (a : Artifact) : Except ArtifactError (Option String) :=
  if a._state = ArtifactState.PENDING then .ok none
  else
    match a._id with
    | some i => .ok (some i)
    | none => .error .assertionError

/-- The `entity` property (artifact.py lines 346-352). -/
def Artifact.entity (a : Artifact) : Except ArtifactError String :=
  if a._state = ArtifactState.PENDING then .error (.artifactNotLoggedError "entity")
  else
    match a._entity with
    | some e => .ok e
    | none => .error .assertionError

/-- The `project` property (artifact.py lines 354-360). -/
def Artifact.project (a : Artifact) : Except ArtifactError String :=
  if a._state = ArtifactState.PENDING then .error (.artifactNotLoggedError "project")
  else
    match a._project with
    | some p => .ok p
    | none => .error .assertionError

/-- The `version` property (artifact.py lines 376-382). -/
def Artifact.version (a : Artifact) : Except ArtifactError String :=
  if a._state = ArtifactState.PENDING then .error (.artifactNotLoggedError "version")
  else
    match a._version with
    | some v => .ok v
    | none => .error .assertionError

/-- The `commit_hash` property (artifact.py lines 544-554). -/
def Artifact.commit_hash (a : Artifact) : Except ArtifactError String :=
  if a._state = ArtifactState.PENDING then .error (.artifactNotLoggedError "commit_hash")
  else
    match a._commit_hash with
    | some h => .ok h
    | none => .error .assertionError

/-- The `created_at` property (artifact.py lines 563-569). -/
def Artifact.created_at (a : Artifact) : Except ArtifactError String :=
  if a._state = ArtifactState.PENDING then .error (.artifactNotLoggedError "created_at")
  else
    match a._created_at with
    | some c => .ok c
    | none => .error .assertionError

/-- Python `x or y` on an optional string: `y` when `x` is `None` or empty. -/
def pyOrStr (x : Option String) (y : String) : String :=
  match x with
  | some s => if s = "" then y else s
  | none => y

/-- The `updated_at` property (artifact.py lines 571-577); note the source
raises `ArtifactNotLoggedError(self, "created_at")` here. -/
def Artifact.updated_at (a : Artifact) : Except ArtifactError String :=
  if a._state = ArtifactState.PENDING then .error (.artifactNotLoggedError "created_at")
  else
    match a._created_at with
    | some c => .ok (pyOrStr a._updated_at c)
    | none => .error .assertionError

/-- The `size` property (artifact.py lines 530-542): total of the sizes of
the entries whose size is set. -/
def Artifact.size (a : Artifact) : Nat :=
  a._manifest.entries.foldl
    (fun total pe =>
      match pe.2.size with
      | some n => total + n
      | none => total)
    0

/-- `Artifact._add_local_file` (artifact.py lines 1289-1306): copies the
source file into read-only staging (the staged bytes become the entry's
`local_path`), builds the entry and adds it to the manifest, recording the
source path in `_added_local_paths`.  `src` is the source path, `content`
the bytes read from it. -/
def Artifact._add_local_file (a : Artifact) (name : String) (src : String)
    (content : Content) (digest : Option Digest) :
    Except ArtifactError ArtifactManifestEntry × Artifact :=
  let entry : ArtifactManifestEntry :=
    { path := LogicalPath name
      digest := digest.getD (md5_file_b64 content)
      size := some content.length
      ref := none
      local_path := some content }
  match a._manifest.add_entry entry with
  | .error e => (.error e, a)
  | .ok m =>
    (.ok entry,
      { a with
        _manifest := m
        _added_local_paths := setKey a._added_local_paths src entry })

/-- `Artifact.add_file` (artifact.py lines 963-1011), with the default
`is_tmp=False`: finalization guard, regular-file check, name defaulting to
the basename, digest of the file bytes, then `_add_local_file`.  `fs` maps
each existing regular file's path to its bytes. -/
def Artifact.add_file (a : Artifact) (fs : FS) (local_path : String)
    (name : Option String) :
    Except ArtifactError ArtifactManifestEntry × Artifact :=
  if a._final then (.error .artifactFinalizedError, a)
  else
    match findKey fs local_path with
    | none => (.error (.valueError ("Path is not a file: " ++ local_path)), a)
    | some content =>
      let nm := LogicalPath (name.getD (basename local_path))
      let digest := md5_file_b64 content
      a._add_local_file nm local_path content (some digest)

/-- The fan-out of `Artifact.add_dir` (artifact.py lines 1060-1070): add
every enumerated file via `_add_local_file`.  The bounded worker pool is
order-independent for path-keyed entries (spec section 5); it is modelled as
a sequential fold, a failure aborting the remainder of the walk. -/
def Artifact.addDirFiles :
    Artifact → List (String × String × Content) →
    Except ArtifactError Unit × Artifact
  | a, [] => (.ok (), a)
  | a, (logical, physical, c) :: rest =>
    match a._add_local_file logical physical c none with
    | (.error e, a') => (.error e, a')
    | (.ok _, a') => Artifact.addDirFiles a' rest

/-- `Artifact.add_dir` (artifact.py lines 1013-1072): finalization guard,
directory check, then one `_add_local_file` per file under the directory.
`dirListing` is the `os.walk` enumeration (relative path, bytes) of
`local_path`, or `none` when `local_path` is not a directory. -/
def Artifact.add_dir (a : Artifact) (dirListing : Option (List (String × Content)))
    (name : Option String) : Except ArtifactError Unit × Artifact :=
  if a._final then (.error .artifactFinalizedError, a)
  else
    match dirListing with
    | none => (.error (.valueError "Path is not a directory"), a)
    | some files =>
      let paths := files.map (fun pc =>
        ((match name with
          | some n => n ++ "/" ++ pc.1
          | none => pc.1), pc.1, pc.2))
      a.addDirFiles paths

/-- `Artifact.new_file` (artifact.py lines 917-961): finalization guard,
write `content` to a fresh temp file, then `add_file` it under `name`. -/
def Artifact.new_file (a : Artifact) (name : String) (content : Content) :
    Except ArtifactError ArtifactManifestEntry × Artifact :=
  if a._final then (.error .artifactFinalizedError, a)
  else
    let tmpPath := "tmp/" ++ lstripSlash name
    a.add_file [(tmpPath, content)] tmpPath (some name)

/-- The registry of artifacts reachable by server id.  Modelled from the
spec: `Artifact.from_id` consults the committed-object cache and otherwise
the metadata service (spec sections 4.4 and 9); both are outside `src/`, and
the canonical server-id-to-artifact mapping is modelled as this finite
map (keys are base-64 server ids). -/
structure World where
  artifacts : List (String × Artifact)
deriving Repr, DecidableEq

/-- `Artifact.from_id` against the modelled registry. -/
def World.from_id (w : World) (artifact_id : String) : Option Artifact :=
  findKey w.artifacts artifact_id

/-- The call `target_artifact._load_manifest()` at wb_artifact_handler.py
line 105.  `Artifact._load_manifest` is declared as
`_load_manifest(self, url: str)` (artifact.py line 1882), so this
zero-argument call raises `TypeError` for the missing positional `url`
before the method body runs. -/
def loadManifestNoArg (_target : Artifact) : Except ArtifactError Unit :=
  .error (.typeError "_load_manifest() missing 1 required positional argument: url")

/-- The resolution loop of `WBArtifactHandler.store_path`
(wb_artifact_handler.py lines 94-108): while the path is a
`wandb-artifact://` URI, fetch the target artifact, reload its manifest,
look the path up in it, and continue with that entry's `ref`.  The loop
variables used after the loop are returned: the last target artifact, the
last path within it, and the last (concrete) entry.  A `from_id` miss makes
the following attribute access raise on `None`; on a fetched artifact the
`_load_manifest()` call of line 105 raises `TypeError` (see
`loadManifestNoArg`), so in this snapshot no iteration of the loop can
complete — the arms below it embed the remaining source lines, unreachable
at run time.  `fuel` bounds the recursion, which the raising call already
cuts short. -/
def WBArtifactHandler.store_path_resolve :
    World → RefURI → Nat →
    Except ArtifactError (Artifact × String × ArtifactManifestEntry)
  | _, _, 0 => .error (.valueError "cyclic cross-artifact reference chain")
  | _, .external _ _, _ + 1 =>
    .error (.valueError "store_path requires a wandb-artifact URI")
  | w, .wandb hexId filePath, fuel + 1 =>
    match w.from_id (hex_to_b64_id hexId) with
    | none =>
      .error (.attributeError "NoneType object has no attribute _load_manifest")
    | some target =>
      match loadManifestNoArg target with
      | .error e => .error e
      | .ok _ =>
        match target._manifest.get_entry_by_path filePath with
        | none => .error (.attributeError "NoneType object has no attribute ref")
        | some entry =>
          match entry.ref with
          | some (.wandb h2 p2) =>
            WBArtifactHandler.store_path_resolve w (.wandb h2 p2) fuel
          | _ => .ok (target, filePath, entry)

/-- `WBArtifactHandler.store_path` (wb_artifact_handler.py lines 74-127):
resolve the chain, then emit a single entry whose `ref` encodes the last
target artifact's server id and path, whose digest is the concrete entry's
digest, and whose size is 0.  Since the resolution loop raises on its first
iteration (see `store_path_resolve`), no invocation reaches the
entry-emission lines. -/
def WBArtifactHandler.store_path (w : World) (fuel : Nat) (path : RefURI)
    (name : Option String) :
    Except ArtifactError (List ArtifactManifestEntry) :=
  match WBArtifactHandler.store_path_resolve w path fuel with
  | .error e => .error e
  | .ok (target, filePath, entry) =>
    match Artifact.id target with
    | .ok (some tid) =>
      .ok
        [{ path := LogicalPath (name.getD (basename filePath))
           digest := entry.digest
           size := some 0
           ref := some (.wandb (b64_to_hex_id tid) filePath)
           local_path := none }]
    | _ => .error (.valueError "target artifact has no server id")

/-- Append a list of handler-produced entries to the manifest
(artifact.py lines 1167-1168), a failure keeping the entries already
added. -/
def Artifact.addEntries :
    Artifact → List ArtifactManifestEntry →
    Except ArtifactError Unit × Artifact
  | a, [] => (.ok (), a)
  | a, e :: rest =>
    match a._manifest.add_entry e with
    | .error err => (.error err, a)
    | .ok m => Artifact.addEntries { a with _manifest := m } rest

/-- `Artifact.add_reference` (artifact.py lines 1074-1170): finalization
guard, scheme check, storage-policy dispatch, then add the produced entries.
Of the storage handlers only the cross-artifact one is under `src/`; the
claims below only exercise `wandb-artifact` URIs, and dispatch on any other
scheme is modelled as the policy delegating to a handler outside this
development. -/
def Artifact.add_reference (a : Artifact) (w : World) (fuel : Nat)
    (uri : RefURI) (name : Option String) :
    Except ArtifactError (List ArtifactManifestEntry) × Artifact :=
  if a._final then (.error .artifactFinalizedError, a)
  else if uri.scheme = "" then
    (.error (.valueError "References must be URIs. To reference a local file, use file://"), a)
  else
    match uri with
    | .external s _ => (.error (.valueError ("no modelled handler for scheme " ++ s)), a)
    | .wandb h p =>
      match WBArtifactHandler.store_path w fuel (.wandb h p) (name.map LogicalPath) with
      | .error e => (.error e, a)
      | .ok entries =>
        match a.addEntries entries with
        | (.error e, a') => (.error e, a')
        | (.ok _, a') => (.ok entries, a')

/-- `Artifact.add` (artifact.py lines 1172-1287) for an in-memory typed
value: finalization guard, suffix the name, return the existing entry if the
path is already present, otherwise serialize through `new_file` and (as the
source does) `add_file` the written file once more, an idempotent re-add.
The typed-value serialization itself is outside the core (spec section 1):
`objJson` stands for the object's serialized JSON bytes and `sfx` for its
type suffix.  The source's media-table temporary renaming and its per-object
identity cache are not modelled. -/
def Artifact.add (a : Artifact) (objJson : Content) (sfx : String)
    (name : String) :
    Except ArtifactError ArtifactManifestEntry × Artifact :=
  if a._final then (.error .artifactFinalizedError, a)
  else
    let nm := withSuffix (LogicalPath name) sfx
    match findKey a._manifest.entries nm with
    | some e => (.ok e, a)
    | none =>
      match a.new_file nm objJson with
      | (.error e, a') => (.error e, a')
      | (.ok _, a1) =>
        let tmpPath := "tmp/" ++ lstripSlash nm
        a1.add_file [(tmpPath, objJson)] tmpPath (some nm)

/-- The server attributes `_populate_after_save` reads from the
`ArtifactByID` response (artifact.py lines 669-706); the GraphQL transport
and manifest HTTP fetch are external, so the delivered data is an explicit
argument.  `aliases` pairs each alias with its collection name. -/
structure ArtifactAttrs where
  sequenceEntityName : String
  sequenceProjectName : String
  sequenceName : String
  versionIndex : Nat
  aliases : List (String × String)
  state : ArtifactState
  manifest : ArtifactManifest
  commitHash : String
  fileCount : Nat
  createdAt : String
  updatedAt : String
deriving Repr, DecidableEq

/-- `Artifact._populate_after_save` (artifact.py lines 707-733): copy the
server-assigned identity, version, aliases, state, manifest and timestamps
onto the draft.  Note the source leaves `_final` and `_saved_aliases`
untouched. -/
def Artifact._populate_after_save (a : Artifact) (artifact_id : String)
    (attrs : ArtifactAttrs) : Artifact :=
  let nm := attrs.sequenceName ++ ":v" ++ toString attrs.versionIndex
  let vix := "v" ++ toString attrs.versionIndex
  { a with
    _id := some artifact_id
    _entity := some attrs.sequenceEntityName
    _project := some attrs.sequenceProjectName
    _name := nm
    _version := some vix
    _source_entity := some attrs.sequenceEntityName
    _source_project := some attrs.sequenceProjectName
    _source_name := nm
    _source_version := some vix
    _aliases := (attrs.aliases.filter (fun ca =>
      ca.1 = collectionName nm ∧ ¬ alias_is_version_index ca.2)).map (fun ca => ca.2)
    _state := attrs.state
    _manifest := attrs.manifest
    _commit_hash := some attrs.commitHash
    _file_count := some attrs.fileCount
    _created_at := some attrs.createdAt
    _updated_at := some attrs.updatedAt }

/-- The GraphQL mutations `_update` can submit to the metadata service. -/
inductive Mutation where
  | addAliases (aliases : List String)
  | deleteAliases (aliases : List String)
  | updateArtifact (description : Option String)
      (metadata : List (String × String)) (aliases : Option (List String))
deriving Repr, DecidableEq

/-- The alias additions `_update` computes (artifact.py line 752):
`set(self._aliases) - set(self._saved_aliases)`. -/
def Artifact.aliasesToAdd (a : Artifact) : List String :=
  a._aliases.dedup.filter (fun x => ¬ a._saved_aliases.contains x)

/-- The alias removals `_update` computes (artifact.py line 753):
`set(self._saved_aliases) - set(self._aliases)`. -/
def Artifact.aliasesToDelete (a : Artifact) : List String :=
  a._saved_aliases.dedup.filter (fun x => ¬ a._aliases.contains x)

/-- `Artifact._update` (artifact.py lines 735-855): the mutations submitted
and the updated client object.  `supportsAddAliases` is the result of the
`AddAliasesInput` introspection probe (true for backend 0.13.0 and later).
On a supporting backend the alias deltas are sent through `addAliases` /
`deleteAliases` (each only when nonempty), `_saved_aliases` is synced, and
`updateArtifact` is sent with `aliases = None`; on an older backend the full
alias list rides on `updateArtifact` and `_saved_aliases` is not synced. -/
def Artifact._update (a : Artifact) (supportsAddAliases : Bool) :
    List Mutation × Artifact :=
  if supportsAddAliases then
    let toAdd := a.aliasesToAdd
    let toDel := a.aliasesToDelete
    ((if toAdd.length > 0 then [Mutation.addAliases toAdd] else []) ++
      (if toDel.length > 0 then [Mutation.deleteAliases toDel] else []) ++
      [Mutation.updateArtifact a._description a._metadata none],
      { a with _saved_aliases := a._aliases })
  else
    ([Mutation.updateArtifact a._description a._metadata (some a._aliases)], a)

/-- The server-side record of one committed artifact, as far as `delete`
observes it.  Modelled from the spec: the metadata service is an external
collaborator (spec section 6). -/
structure ServerRecord where
  state : ArtifactState
  aliases : List String
deriving Repr, DecidableEq

/-- Modelled from the spec: the metadata service's `deleteArtifact` mutation
(spec sections 6 and 8): with `deleteAliases=false` it fails while aliases
exist; otherwise the artifact's server-side state becomes `Deleted`, the
terminal state. -/
def serverDeleteArtifact (r : ServerRecord) (deleteAliases : Bool) :
    Except ArtifactError ServerRecord :=
  if ¬ deleteAliases ∧ r.aliases ≠ [] then
    .error (.valueError "artifact has existing aliases")
  else .ok { state := ArtifactState.DELETED, aliases := [] }

/-- `Artifact.delete` (artifact.py lines 1643-1684): raises
`ArtifactNotLoggedError` on a draft, otherwise submits the `deleteArtifact`
mutation for this artifact's id; the resulting server record is returned.
The source never changes the client object's own `_state`. -/
def Artifact.delete (a : Artifact) (r : ServerRecord) (deleteAliases : Bool) :
    Except ArtifactError ServerRecord :=
  if a._state = ArtifactState.PENDING then
    .error (.artifactNotLoggedError "delete")
  else serverDeleteArtifact r deleteAliases

/-- `Artifact._get_obj_entry` (artifact.py lines 1430-1446): look the name up
under each typed-value suffix.  The suffix set comes from the typed-value
registry (outside the core, spec section 1) and is passed in. -/
def Artifact._get_obj_entry (a : Artifact) (suffixes : List String)
    (name : String) : Option ArtifactManifestEntry :=
  match suffixes.filterMap (fun s => findKey a._manifest.entries (withSuffix name s)) with
  | e :: _ => some e
  | [] => none

/-- `Artifact.get_path` (artifact.py lines 1308-1343): draft guard, then
manifest lookup with the type-suffix fallback, `KeyError` when both miss. -/
def Artifact.get_path (a : Artifact) (suffixes : List String) (name : String) :
    Except ArtifactError ArtifactManifestEntry :=
  if a._state = ArtifactState.PENDING then
    .error (.artifactNotLoggedError "get_path")
  else
    let nm := LogicalPath name
    match findKey a._manifest.entries nm with
    | some e => .ok e
    | none =>
      match a._get_obj_entry suffixes nm with
      | some e => .ok e
      | none => .error (.keyError nm)

def isOkB {ε α : Type} : Except ε α → Bool
  | .ok _ => true
  | .error _ => false

/-- Whether a file at relative path `p` under the download root corresponds
to a manifest entry, i.e. `get_path` succeeds on it (the membership test of
`checkout` and `verify`). -/
def Artifact.trackedPath (a : Artifact) (suffixes : List String) (p : String) : Bool :=
  isOkB (a.get_path suffixes p)

/-- The size total at artifact.py line 1474:
`size = sum(e.size for e in self._manifest.entries.values())`.  The sum is
unguarded, so the first entry whose size is `None` raises `TypeError`. -/
def sumSizes : List (String × ArtifactManifestEntry) → Except ArtifactError Nat
  | [] => .ok 0
  | pe :: rest =>
    match pe.2.size with
    | none => .error (.typeError "unsupported operand type for +: int and NoneType")
    | some n =>
      match sumSizes rest with
      | .ok m => .ok (n + m)
      | .error e => .error e

/-- `Artifact.download` (artifact.py lines 1450-1507) at the filesystem
level: draft guard; total the entry sizes (the unguarded sum of line 1474,
which raises `TypeError` when any entry's size is unknown); then
materialize every manifest entry under the root, leaving other existing
files untouched, and return the root.  The filesystem under the root is
returned next to the result, as the mutators return the artifact.  The
per-entry fetch pipeline (storage policy, content cache, network) is
outside `src/`; it is modelled from the spec as `fetch`, resolving an entry
to its bytes, and the order-independent worker pool (spec section 5) as a
fold. -/
def Artifact.download (a : Artifact) (fetch : ArtifactManifestEntry → Content)
    (fs : FS) (root : String) : Except ArtifactError String × FS :=
  if a._state = ArtifactState.PENDING then
    (.error (.artifactNotLoggedError "download"), fs)
  else
    match sumSizes a._manifest.entries with
    | .error e => (.error e, fs)
    | .ok _ =>
      (.ok root,
        a._manifest.entries.foldl (fun acc pe => setKey acc pe.1 (fetch pe.2)) fs)

/-- The deletion pass of `Artifact.checkout` (artifact.py lines 1526-1534):
remove every file under the root on which `get_path` raises `KeyError`. -/
def Artifact.deleteUntracked (a : Artifact) (suffixes : List String) (fs : FS) : FS :=
  fs.filter (fun pc => a.trackedPath suffixes pc.1)

/-- `Artifact.checkout` (artifact.py lines 1509-1536): draft guard, delete
every untracked file under the root, then `download` into the root.  The
deletion pass runs before `download`, so its removals persist even when
`download` then raises. -/
def Artifact.checkout (a : Artifact) (suffixes : List String)
    (fetch : ArtifactManifestEntry → Content) (fs : FS) (root : String) :
    Except ArtifactError String × FS :=
  if a._state = ArtifactState.PENDING then
    (.error (.artifactNotLoggedError "checkout"), fs)
  else a.download fetch (a.deleteUntracked suffixes fs) root

/-- The per-entry pass of `Artifact.verify` (artifact.py lines 1571-1579):
skip reference entries (counting them), and for each non-reference entry
recompute the content hash of the file at the entry's path under the root —
a missing file is the file-not-found error the hash of a nonexistent path
raises, a digest mismatch the `ValueError` naming the path.  Returns the
reference count reported on success. -/
def verifyEntries (fs : FS) : List ArtifactManifestEntry → Except ArtifactError Nat
  | [] => .ok 0
  | e :: rest =>
    match e.ref with
    | some _ =>
      match verifyEntries fs rest with
      | .ok n => .ok (n + 1)
      | .error err => .error err
    | none =>
      match findKey fs e.path with
      | none => .error (.fileNotFoundError e.path)
      | some c =>
        if md5_file_b64 c ≠ e.digest then
          .error (.valueError ("Digest mismatch for file: " ++ e.path))
        else verifyEntries fs rest

/-- The untracked-file pass of `Artifact.verify` (artifact.py lines
1558-1569): the first file under the root that is not a member of the
artifact. -/
def firstUntracked (a : Artifact) (suffixes : List String) (fs : FS) : Option String :=
  match fs.find? (fun pc => !(a.trackedPath suffixes pc.1)) with
  | some pc => some pc.1
  | none => none

/-- `Artifact.verify` (artifact.py lines 1538-1579): draft guard; fail on
the first file under the root that is not a member of the artifact; then
recompute and compare the hash of every non-reference entry; on success
report the number of skipped reference entries. -/
def Artifact.verify (a : Artifact) (suffixes : List String) (fs : FS) :
    Except ArtifactError Nat :=
  if a._state = ArtifactState.PENDING then
    .error (.artifactNotLoggedError "verify")
  else
    match firstUntracked a suffixes fs with
    | some p => .error (.valueError ("Found file " ++ p ++ " which is not a member of artifact " ++ a._name))
    | none => verifyEntries fs (a._manifest.entries.map (fun pe => pe.2))

/-! ### Association-list and path lemmas -/

theorem findKey_append_none {α : Type} (l : List (String × α)) (k : String) (v : α)
    (h : findKey l k = none) : findKey (l ++ [(k, v)]) k = some v := by
  induction l with
  | nil => simp [findKey]
  | cons hd tl ih =>
    by_cases hk : hd.1 = k
    · simp [findKey, hk] at h
    · simp [findKey, hk] at h ⊢
      exact ih h

theorem countKey_of_findKey_none {α : Type} (l : List (String × α)) (k : String)
    (h : findKey l k = none) : countKey l k = 0 := by
  induction l with
  | nil => rfl
  | cons hd tl ih =>
    by_cases hk : hd.1 = k
    · simp [findKey, hk] at h
    · simp [findKey, hk] at h
      simpa [countKey, List.filter_cons, hk] using ih h

theorem countKey_append_singleton {α : Type} (l : List (String × α)) (k : String) (v : α) :
    countKey (l ++ [(k, v)]) k = countKey l k + 1 := by
  simp [countKey, List.filter_append]

theorem setKey_idem {α : Type} (l : List (String × α)) (k : String) (v : α) :
    setKey (setKey l k v) k v = setKey l k v := by
  induction l with
  | nil => simp [setKey]
  | cons hd tl ih =>
    by_cases hk : hd.1 = k
    · simp [setKey, hk]
    · simp [setKey, hk, ih]

theorem findKey_filter {α : Type} (l : List (String × α)) (pred : String → Bool)
    (k : String) :
    findKey (l.filter (fun pc => pred pc.1)) k =
      if pred k then findKey l k else none := by
  induction l with
  | nil => simp [findKey]
  | cons hd tl ih =>
    by_cases hp : pred hd.1
    · by_cases hk : hd.1 = k
      · subst hk
        simp [List.filter_cons, hp, findKey]
      · simp [List.filter_cons, hp, findKey, hk, ih]
    · by_cases hk : hd.1 = k
      · subst hk
        simp only [Bool.not_eq_true] at hp
        simp [List.filter_cons, hp, findKey, ih]
      · simp only [Bool.not_eq_true] at hp
        simp [List.filter_cons, hp, findKey, hk, ih]

theorem dropLeadingSlashes_idem (cs : List Char) :
    dropLeadingSlashes (dropLeadingSlashes cs) = dropLeadingSlashes cs := by
  induction cs with
  | nil => rfl
  | cons c cs ih =>
    by_cases h : c = '/'
    · simp [dropLeadingSlashes, h, ih]
    · simp [dropLeadingSlashes, h]

theorem LogicalPath_idem (s : String) : LogicalPath (LogicalPath s) = LogicalPath s := by
  simp [LogicalPath, String.toList, dropLeadingSlashes_idem]

/-! ### Concrete fixtures used by counterexamples and witnesses -/

/-- The draft `Artifact("ds", type="dataset")` builds. -/
def sampleDraft : Artifact :=
  { _id := none
    _entity := none
    _project := none
    _name := "ds"
    _version := none
    _source_entity := none
    _source_project := none
    _source_name := "ds"
    _source_version := none
    _type := "dataset"
    _description := none
    _metadata := []
    _aliases := ["latest"]
    _saved_aliases := []
    _state := ArtifactState.PENDING
    _manifest := { entries := [] }
    _commit_hash := none
    _file_count := none
    _created_at := none
    _updated_at := none
    _final := false
    _added_local_paths := [] }

/-- A server response for the saved `ds` artifact, version 0, committed. -/
def sampleAttrs : ArtifactAttrs :=
  { sequenceEntityName := "ent"
    sequenceProjectName := "proj"
    sequenceName := "ds"
    versionIndex := 0
    aliases := [("ds", "latest"), ("ds", "v0")]
    state := ArtifactState.COMMITTED
    manifest := { entries := [] }
    commitHash := "h0"
    fileCount := 0
    createdAt := "t0"
    updatedAt := "t1"
    }

/-- The `ds` draft after `wait()` ran `_populate_after_save` on the server
response: committed, yet `_final` is still false. -/
def sampleLogged : Artifact := sampleDraft._populate_after_save "SRV" sampleAttrs

/-! ### C1 -/

/-- Claim C1, counterexample: the mutator guard `_ensure_can_add` checks only
`_final`.  An artifact driven through `__init__` and then
`_populate_after_save` on a committed server response has `state == COMMITTED`
but `final == false`, and `add_file` on it succeeds instead of raising
`ArtifactFinalizedError`. -/
theorem ensure_can_add_ignores_state :
    Artifact.init "ds" "dataset" none [] = .ok sampleDraft ∧
    sampleLogged._state = ArtifactState.COMMITTED ∧
    sampleLogged._final = false ∧
    isOkB (sampleLogged.add_file [("f.txt", [1, 2])] "f.txt" none).1 = true ∧
    (sampleLogged.add_file [("f.txt", [1, 2])] "f.txt" none).1 ≠
      Except.error ArtifactError.artifactFinalizedError := by
  refine ⟨by decide, by decide, by decide, by decide, by decide⟩

/-- Claim C1 (amended): for every artifact with `final == true`, every
manifest mutator — `add_file`, `add_dir`, `add_reference`, `new_file`, `add`
— fails with `ArtifactFinalizedError` and returns the artifact (in
particular its manifest) unchanged.  The state is not consulted by the
guard. -/
theorem finalized_mutators_fail_unchanged (a : Artifact) (fs : FS)
    (lp : String) (nm : Option String) (dirL : Option (List (String × Content)))
    (w : World) (fuel : Nat) (uri : RefURI) (objJson content : Content)
    (sfx nname : String) (h : a._final = true) :
    a.add_file fs lp nm = (.error .artifactFinalizedError, a) ∧
    a.add_dir dirL nm = (.error .artifactFinalizedError, a) ∧
    a.add_reference w fuel uri nm = (.error .artifactFinalizedError, a) ∧
    a.new_file nname content = (.error .artifactFinalizedError, a) ∧
    a.add objJson sfx nname = (.error .artifactFinalizedError, a) := by
  refine ⟨?_, ?_, ?_, ?_, ?_⟩ <;>
    simp [Artifact.add_file, Artifact.add_dir, Artifact.add_reference,
      Artifact.new_file, Artifact.add, h]

/-- Claim C1 witness: the amended theorem at a concrete finalized artifact. -/
theorem finalized_mutators_fail_unchanged_witness :
    ({ sampleDraft with _final := true } : Artifact)._final = true ∧
    (({ sampleDraft with _final := true } : Artifact).add_file
        [("f.txt", [1])] "f.txt" none =
      (.error .artifactFinalizedError, { sampleDraft with _final := true })) :=
  ⟨by decide,
    (finalized_mutators_fail_unchanged { sampleDraft with _final := true }
      [("f.txt", [1])] "f.txt" none none ⟨[]⟩ 1 (.wandb "A" "p") [] []
      "" "x" (by decide)).1⟩

/-! ### C2 -/

/-- Claim C2, counterexample: on a draft artifact the `id` property returns
`None` — it does not raise `ArtifactNotLoggedError` (nor any error), while
the claim says every server-assigned field, the server id included, fails
with `NotLoggedError`. -/
theorem draft_id_returns_none :
    sampleDraft._state = ArtifactState.PENDING ∧
    Artifact.id sampleDraft = .ok none ∧
    isOkB (Artifact.id sampleDraft) = true := by
  refine ⟨by decide, by decide, by decide⟩

/-- Claim C2 (amended): on every artifact in the Draft (PENDING) state the
server-assigned fields `version`, `commit_hash`, `created_at`, `updated_at`,
`entity` and `project` fail with `ArtifactNotLoggedError`, while the server
`id` property returns `None` instead of raising. -/
theorem draft_server_fields_not_logged (a : Artifact)
    (h : a._state = ArtifactState.PENDING) :
    Artifact.id a = .ok none ∧
    a.entity = .error (.artifactNotLoggedError "entity") ∧
    a.project = .error (.artifactNotLoggedError "project") ∧
    a.version = .error (.artifactNotLoggedError "version") ∧
    a.commit_hash = .error (.artifactNotLoggedError "commit_hash") ∧
    a.created_at = .error (.artifactNotLoggedError "created_at") ∧
    a.updated_at = .error (.artifactNotLoggedError "created_at") := by
  refine ⟨?_, ?_, ?_, ?_, ?_, ?_, ?_⟩ <;>
    simp [Artifact.id, Artifact.entity, Artifact.project, Artifact.version,
      Artifact.commit_hash, Artifact.created_at, Artifact.updated_at, h]

/-- Claim C2 witness: the amended theorem at a concrete draft. -/
theorem draft_server_fields_not_logged_witness :
    sampleDraft._state = ArtifactState.PENDING ∧
    (Artifact.id sampleDraft = .ok none ∧
      sampleDraft.entity = .error (.artifactNotLoggedError "entity") ∧
      sampleDraft.project = .error (.artifactNotLoggedError "project") ∧
      sampleDraft.version = .error (.artifactNotLoggedError "version") ∧
      sampleDraft.commit_hash = .error (.artifactNotLoggedError "commit_hash") ∧
      sampleDraft.created_at = .error (.artifactNotLoggedError "created_at") ∧
      sampleDraft.updated_at = .error (.artifactNotLoggedError "created_at")) :=
  ⟨by decide, draft_server_fields_not_logged sampleDraft (by decide)⟩

/-! ### C8 -/

/-- Claim C8: `delete` on a draft fails with `ArtifactNotLoggedError`;
`delete` on a committed artifact with `delete_aliases=true` succeeds and the
artifact's (server-side) state becomes `Deleted`. -/
theorem delete_draft_fails_committed_deletes (a : Artifact) (r : ServerRecord) :
    (a._state = ArtifactState.PENDING →
      a.delete r true = .error (.artifactNotLoggedError "delete")) ∧
    (a._state = ArtifactState.COMMITTED →
      a.delete r true = .ok { state := ArtifactState.DELETED, aliases := [] }) := by
  constructor <;> intro h <;>
    simp [Artifact.delete, serverDeleteArtifact, h]

/-- Claim C8 witness: a draft and a committed artifact, the latter with an
existing alias, against a concrete server record. -/
theorem delete_draft_fails_committed_deletes_witness :
    (sampleDraft._state = ArtifactState.PENDING ∧
      sampleDraft.delete { state := ArtifactState.COMMITTED, aliases := ["latest"] } true =
        .error (.artifactNotLoggedError "delete")) ∧
    (sampleLogged._state = ArtifactState.COMMITTED ∧
      sampleLogged.delete { state := ArtifactState.COMMITTED, aliases := ["latest"] } true =
        .ok { state := ArtifactState.DELETED, aliases := [] }) :=
  ⟨⟨by decide,
      (delete_draft_fails_committed_deletes sampleDraft
        { state := ArtifactState.COMMITTED, aliases := ["latest"] }).1 (by decide)⟩,
    ⟨by decide,
      (delete_draft_fails_committed_deletes sampleLogged
        { state := ArtifactState.COMMITTED, aliases := ["latest"] }).2 (by decide)⟩⟩

/-! ### C9 -/

/-- Claim C9: every artifact `__init__` constructs starts with its alias
list equal to exactly `["latest"]`, with nothing synced yet, so the first
alias sync submits `latest` unless the caller removes it. -/
theorem init_aliases_latest (name ty : String) (d : Option String)
    (md : List (String × String)) (a : Artifact)
    (h : Artifact.init name ty d md = .ok a) :
    a._aliases = ["latest"] ∧ a._saved_aliases = [] ∧
    a.aliasesToAdd = ["latest"] ∧ a._state = ArtifactState.PENDING := by
  unfold Artifact.init at h
  split at h
  · exact absurd h (by simp)
  · split at h
    · exact absurd h (by simp)
    · cases h
      refine ⟨rfl, rfl, ?_, rfl⟩
      simp [Artifact.aliasesToAdd]

/-- Claim C9 witness: `Artifact("ds", type="dataset")`. -/
theorem init_aliases_latest_witness :
    Artifact.init "ds" "dataset" none [] = .ok sampleDraft ∧
    (sampleDraft._aliases = ["latest"] ∧ sampleDraft._saved_aliases = [] ∧
      sampleDraft.aliasesToAdd = ["latest"] ∧
      sampleDraft._state = ArtifactState.PENDING) :=
  ⟨by decide, init_aliases_latest "ds" "dataset" none [] sampleDraft (by decide)⟩

/-! ### C10 -/

theorem size_foldl_eq (l : List (String × ArtifactManifestEntry)) (acc : Nat) :
    l.foldl
        (fun total pe =>
          match pe.2.size with
          | some n => total + n
          | none => total)
        acc =
      acc + (l.filterMap (fun pe => pe.2.size)).sum := by
  induction l generalizing acc with
  | nil => simp
  | cons hd tl ih =>
    cases h : hd.2.size with
    | none => simp [List.foldl_cons, h, ih, List.filterMap_cons]
    | some n => simp [List.foldl_cons, h, ih, List.filterMap_cons, Nat.add_assoc]

/-- Claim C10: `size` is the sum of the sizes of exactly those manifest
entries whose size is known; entries with unknown size contribute nothing
and cause no error (`size` is total). -/
theorem size_sums_known_entry_sizes (a : Artifact) :
    a.size = (a._manifest.entries.filterMap (fun pe => pe.2.size)).sum := by
  simpa [Artifact.size] using size_foldl_eq a._manifest.entries 0

/-! ### C7 -/

/-- Whether a mutation replaces the full alias list through
`updateArtifact`. -/
def Mutation.isFullAliasReplace : Mutation → Bool
  | .updateArtifact _ _ (some _) => true
  | _ => false

/-- A committed artifact whose in-memory aliases drifted from the last
synced ones. -/
def sampleAliasArtifact : Artifact :=
  { sampleLogged with
    _aliases := ["latest", "best"]
    _saved_aliases := ["latest"] }

/-- Claim C7, counterexample: against a backend without `AddAliasesInput`
(version < 0.13.0) `_update` takes its legacy branch, submitting the full
in-memory alias list on `updateArtifact` — a full alias replace — and does
not sync `_saved_aliases`. -/
theorem update_legacy_full_replace :
    (sampleAliasArtifact._update false).1 =
      [Mutation.updateArtifact none [] (some ["latest", "best"])] ∧
    ((sampleAliasArtifact._update false).1.any Mutation.isFullAliasReplace) = true ∧
    (sampleAliasArtifact._update false).2._saved_aliases ≠
      sampleAliasArtifact._aliases := by
  refine ⟨by decide, by decide, by decide⟩

/-- Claim C7 (amended): when the backend supports `AddAliasesInput`
(version 0.13.0 and later), `_update` submits exactly the alias set
differences as `addAliases`/`deleteAliases` deltas (each only when
nonempty), never a full alias replace, pushes description and metadata
wholesale on `updateArtifact`, and afterwards the last-synced alias list
equals the in-memory one; against an older backend it falls back to
submitting the full alias list on `updateArtifact` and leaves the
last-synced list unsynced. -/
theorem update_submits_alias_deltas (a : Artifact) :
    ((a._update true).2._saved_aliases = a._aliases ∧
      (a._update true).1 =
        (if a.aliasesToAdd.length > 0 then [Mutation.addAliases a.aliasesToAdd] else []) ++
          (if a.aliasesToDelete.length > 0 then [Mutation.deleteAliases a.aliasesToDelete] else []) ++
          [Mutation.updateArtifact a._description a._metadata none] ∧
      (∀ x, x ∈ a.aliasesToAdd ↔ x ∈ a._aliases ∧ x ∉ a._saved_aliases) ∧
      (∀ x, x ∈ a.aliasesToDelete ↔ x ∈ a._saved_aliases ∧ x ∉ a._aliases) ∧
      ((a._update true).1.all (fun m => ¬ m.isFullAliasReplace)) = true) ∧
    ((a._update false).1 =
        [Mutation.updateArtifact a._description a._metadata (some a._aliases)] ∧
      (a._update false).2 = a) := by
  refine ⟨⟨?_, ?_, ?_, ?_, ?_⟩, ?_, ?_⟩
  · simp [Artifact._update]
  · simp [Artifact._update]
  · intro x
    simp [Artifact.aliasesToAdd, List.mem_filter, List.mem_dedup, List.contains,
      List.elem_iff]
  · intro x
    simp [Artifact.aliasesToDelete, List.mem_filter, List.mem_dedup, List.contains,
      List.elem_iff]
  · simp only [Artifact._update, if_pos rfl]
    rcases Nat.decEq a.aliasesToAdd.length 0 with h1 | h1 <;>
      rcases Nat.decEq a.aliasesToDelete.length 0 with h2 | h2 <;>
        simp_all [Mutation.isFullAliasReplace]
  · simp [Artifact._update]
  · simp [Artifact._update]

/-! ### C3 -/

/-- A committed artifact `A` holding a concrete entry at `p`. -/
def entryConcreteA : ArtifactManifestEntry :=
  { path := "p", digest := [9], size := some 3, ref := none, local_path := none }

/-- A committed artifact `B` whose entry at `q` references `A`'s `p`. -/
def entryRefB : ArtifactManifestEntry :=
  { path := "q", digest := [9], size := some 0, ref := some (.wandb "A" "p"),
    local_path := none }

def artifactA : Artifact :=
  { sampleLogged with _id := some "A", _manifest := { entries := [("p", entryConcreteA)] } }

def artifactB : Artifact :=
  { sampleLogged with _id := some "B", _manifest := { entries := [("q", entryRefB)] } }

def chainWorld : World := { artifacts := [("A", artifactA), ("B", artifactB)] }

/-- Claim C3 (code bug): no cross-artifact reference can ever be stored.
Every invocation of `store_path` — which the storage policy dispatches only
for `wandb-artifact` URIs — fails: the first loop iteration calls
`target_artifact._load_manifest()` with no argument
(wb_artifact_handler.py line 105) while `Artifact._load_manifest` requires
a positional `url` (artifact.py line 1882), raising `TypeError`.  In
particular both the direct reference to `A`'s concrete `p` and the chain
through `B` fail, against the store-time resolution into a single size-0
entry that the claim (with spec section 4.3 and the handler's own
docstring) describes. -/
theorem store_path_type_errors :
    (∀ (w : World) (fuel : Nat) (hexId filePath : String) (name : Option String),
      isOkB (WBArtifactHandler.store_path w (fuel + 1) (.wandb hexId filePath) name) = false) ∧
    WBArtifactHandler.store_path chainWorld 2 (.wandb "A" "p") (some "n") =
      .error (.typeError "_load_manifest() missing 1 required positional argument: url") ∧
    WBArtifactHandler.store_path chainWorld 2 (.wandb "B" "q") (some "n") =
      .error (.typeError "_load_manifest() missing 1 required positional argument: url") := by
  refine ⟨?_, by decide, by decide⟩
  intro w fuel hexId filePath name
  cases hfi : w.from_id (hex_to_b64_id hexId) with
  | none =>
    simp [WBArtifactHandler.store_path, WBArtifactHandler.store_path_resolve, hfi, isOkB]
  | some target =>
    simp [WBArtifactHandler.store_path, WBArtifactHandler.store_path_resolve, hfi,
      loadManifestNoArg, isOkB]

/-! ### C4 -/

/-- Claim C4: `add_file` on a draft with a fresh name adds exactly one
manifest entry for that name, and a repeated `add_file` with the identical
(name, content) pair is a no-op — the artifact (its manifest included) is
unchanged and the same entry is returned, so every later identical call in
a sequence is also a no-op. -/
theorem add_file_idempotent (a : Artifact) (fs : FS) (lp nm : String)
    (c : Content) (a1 : Artifact) (e : ArtifactManifestEntry)
    (hfin : a._final = false)
    (hfile : findKey fs lp = some c)
    (hnew : findKey a._manifest.entries (LogicalPath nm) = none)
    (hcall : a.add_file fs lp (some nm) = (.ok e, a1)) :
    a1._manifest.entries = a._manifest.entries ++ [(LogicalPath nm, e)] ∧
    countKey a1._manifest.entries (LogicalPath nm) = 1 ∧
    a1.add_file fs lp (some nm) = (.ok e, a1) := by
  have hpath := LogicalPath_idem nm
  simp only [Artifact.add_file, hfin, Bool.false_eq_true, if_false, hfile,
    Artifact._add_local_file, Option.getD_some, hpath,
    ArtifactManifest.add_entry, hnew] at hcall
  obtain ⟨he, ha1⟩ := Prod.mk.injEq .. ▸ hcall
  have he' := Except.ok.inj he
  subst ha1
  subst he'
  refine ⟨rfl, ?_, ?_⟩
  · rw [countKey_append_singleton, countKey_of_findKey_none _ _ hnew]
  · simp only [Artifact.add_file, hfile, Artifact._add_local_file, Option.getD_some,
      hpath, ArtifactManifest.add_entry, Bool.false_eq_true, if_false,
      findKey_append_none _ _ _ hnew, setKey_idem, if_true]

/-- The entry `add_file("d/f.txt", name="f")` creates for bytes `[3]`. -/
def addedEntry : ArtifactManifestEntry :=
  { path := "f", digest := [3], size := some 1, ref := none, local_path := some [3] }

/-- The `ds` draft after that `add_file`. -/
def draftWithFile : Artifact :=
  { sampleDraft with
    _manifest := { entries := [("f", addedEntry)] }
    _added_local_paths := [("d/f.txt", addedEntry)] }

/-- Claim C4 witness: a concrete first and second identical `add_file`. -/
theorem add_file_idempotent_witness :
    (sampleDraft._final = false ∧
      findKey [("d/f.txt", [3])] "d/f.txt" = some [3] ∧
      findKey sampleDraft._manifest.entries (LogicalPath "f") = none ∧
      sampleDraft.add_file [("d/f.txt", [3])] "d/f.txt" (some "f") =
        (.ok addedEntry, draftWithFile)) ∧
    (draftWithFile._manifest.entries =
        sampleDraft._manifest.entries ++ [(LogicalPath "f", addedEntry)] ∧
      countKey draftWithFile._manifest.entries (LogicalPath "f") = 1 ∧
      draftWithFile.add_file [("d/f.txt", [3])] "d/f.txt" (some "f") =
        (.ok addedEntry, draftWithFile)) :=
  ⟨⟨by decide, by decide, by decide, by decide⟩,
    add_file_idempotent sampleDraft [("d/f.txt", [3])] "d/f.txt" "f" [3]
      draftWithFile addedEntry (by decide) (by decide) (by decide) (by decide)⟩

/-! ### C5 -/

/-- The failure condition of the per-entry verify pass as the code computes
it: a non-reference entry whose file under the root is missing or hashes to
a different digest. -/
def entryBad (fs : FS) (e : ArtifactManifestEntry) : Bool :=
  e.ref.isNone &&
    (match findKey fs e.path with
     | none => true
     | some c => decide (md5_file_b64 c ≠ e.digest))

/-- The digest-mismatch condition exactly as claim C5 words it: a
non-reference entry whose recomputed content hash differs from its recorded
digest — defined only over files that are present, so a missing file is not
a mismatch.  Stated from the claim for comparison with `entryBad`. -/
def entryDigestMismatch (fs : FS) (e : ArtifactManifestEntry) : Bool :=
  e.ref.isNone &&
    (match findKey fs e.path with
     | none => false
     | some c => decide (md5_file_b64 c ≠ e.digest))

theorem verifyEntries_fails_iff (fs : FS) :
    ∀ es : List ArtifactManifestEntry,
      isOkB (verifyEntries fs es) = false ↔ es.any (entryBad fs) = true := by
  intro es
  induction es with
  | nil => simp [verifyEntries, isOkB]
  | cons e rest ih =>
    cases href : e.ref with
    | some r =>
      cases hrest : verifyEntries fs rest with
      | ok n => simp_all [verifyEntries, href, hrest, isOkB, entryBad]
      | error err => simp_all [verifyEntries, href, hrest, isOkB, entryBad]
    | none =>
      cases hfk : findKey fs e.path with
      | none => simp [verifyEntries, href, hfk, isOkB, entryBad]
      | some c =>
        by_cases hd : md5_file_b64 c = e.digest
        · simp_all [verifyEntries, href, hfk, hd, isOkB, entryBad]
        · simp [verifyEntries, href, hfk, hd, isOkB, entryBad]

theorem verifyEntries_ok_count (fs : FS) :
    ∀ (es : List ArtifactManifestEntry) (n : Nat),
      verifyEntries fs es = .ok n →
      n = (es.filter (fun e => e.ref.isSome)).length := by
  intro es
  induction es with
  | nil =>
    intro n h
    simp only [verifyEntries, Except.ok.injEq] at h
    simp [← h]
  | cons e rest ih =>
    intro n h
    cases href : e.ref with
    | some r =>
      cases hrest : verifyEntries fs rest with
      | ok m =>
        simp only [verifyEntries, href, hrest, Except.ok.injEq] at h
        simp [List.filter_cons, href, ← h, ih m hrest]
      | error err => simp [verifyEntries, href, hrest] at h
    | none =>
      cases hfk : findKey fs e.path with
      | none => simp [verifyEntries, href, hfk] at h
      | some c =>
        by_cases hd : md5_file_b64 c = e.digest
        · simp only [verifyEntries, href, hfk, hd] at h
          simp [List.filter_cons, href, ih n (by simpa using h)]
        · simp [verifyEntries, href, hfk, hd] at h

theorem firstUntracked_none_iff (a : Artifact) (suffixes : List String) (fs : FS) :
    firstUntracked a suffixes fs = none ↔
      fs.any (fun pc => !(a.trackedPath suffixes pc.1)) = false := by
  unfold firstUntracked
  rw [List.any_eq_false]
  cases hf : fs.find? (fun pc => !(a.trackedPath suffixes pc.1)) with
  | none =>
    simp only [true_iff]
    intro x hx
    have := List.find?_eq_none.mp hf x hx
    simpa using this
  | some pc =>
    simp only [reduceCtorEq, false_iff, not_forall]
    refine ⟨pc, ⟨List.mem_of_find?_eq_some hf, ?_⟩⟩
    have := List.find?_some hf
    simpa using this

/-- Claim C5 (amended): on a committed artifact, `verify(root)` fails if and
only if some file under the root has no corresponding manifest entry, or
some non-reference entry's file under the root is missing (a file-not-found
failure), or some present non-reference entry's recomputed content hash
differs from its recorded digest; reference entries are never verified, and
on success only their count is reported. -/
theorem verify_fails_iff (a : Artifact) (suffixes : List String) (fs : FS)
    (h : a._state ≠ ArtifactState.PENDING) :
    (isOkB (a.verify suffixes fs) = false ↔
      fs.any (fun pc => !(a.trackedPath suffixes pc.1)) = true ∨
      (a._manifest.entries.map (fun pe => pe.2)).any (entryBad fs) = true) ∧
    (∀ n, a.verify suffixes fs = .ok n →
      n = ((a._manifest.entries.map (fun pe => pe.2)).filter
            (fun e => e.ref.isSome)).length) := by
  have hv : a.verify suffixes fs =
      match firstUntracked a suffixes fs with
      | some p =>
        .error (.valueError ("Found file " ++ p ++ " which is not a member of artifact " ++ a._name))
      | none => verifyEntries fs (a._manifest.entries.map (fun pe => pe.2)) := by
    simp [Artifact.verify, h]
  constructor
  · cases hfu : firstUntracked a suffixes fs with
    | some p =>
      rw [hv, hfu]
      have huntr : fs.any (fun pc => !(a.trackedPath suffixes pc.1)) = true := by
        cases hb : fs.any (fun pc => !(a.trackedPath suffixes pc.1)) with
        | true => rfl
        | false =>
          have := (firstUntracked_none_iff a suffixes fs).mpr hb
          rw [hfu] at this
          exact absurd this (by simp)
      simp [isOkB, huntr]
    | none =>
      rw [hv, hfu]
      have hany := (firstUntracked_none_iff a suffixes fs).mp hfu
      rw [verifyEntries_fails_iff]
      simp [hany]
  · intro n hn
    rw [hv] at hn
    cases hfu : firstUntracked a suffixes fs with
    | some p => rw [hfu] at hn; simp at hn
    | none =>
      rw [hfu] at hn
      exact verifyEntries_ok_count fs _ n hn

/-- A committed artifact holding one non-reference entry at `a`. -/
def entryV : ArtifactManifestEntry :=
  { path := "a", digest := [5], size := some 1, ref := none, local_path := none }

def artifactV : Artifact :=
  { sampleLogged with _manifest := { entries := [("a", entryV)] } }

/-- Claim C5, counterexample: `verify` on an empty root fails — the tracked
file is missing, raising a file-not-found error — although no file under the
root is untracked and no entry's recomputed hash differs from its digest
(there is no hash to recompute), so the claimed "fails if and only if
untracked-file or digest-mismatch" is false. -/
theorem verify_counterexample :
    isOkB (artifactV.verify [] []) = false ∧
    artifactV.verify [] [] = .error (.fileNotFoundError "a") ∧
    (([] : FS).any (fun pc => !(artifactV.trackedPath [] pc.1))) = false ∧
    ((artifactV._manifest.entries.map (fun pe => pe.2)).any
      (entryDigestMismatch ([] : FS))) = false := by
  refine ⟨by decide, by decide, by decide, by decide⟩

/-- Claim C5 witness: the amended theorem at a concrete committed artifact
and a root holding exactly the tracked file with matching bytes. -/
theorem verify_fails_iff_witness :
    (isOkB (artifactV.verify [] [("a", [5])]) = false ↔
      ([("a", [5])] : FS).any (fun pc => !(artifactV.trackedPath [] pc.1)) = true ∨
      (artifactV._manifest.entries.map (fun pe => pe.2)).any
        (entryBad [("a", [5])]) = true) ∧
    0 = ((artifactV._manifest.entries.map (fun pe => pe.2)).filter
          (fun e => e.ref.isSome)).length :=
  ⟨(verify_fails_iff artifactV [] [("a", [5])] (by decide)).1,
    (verify_fails_iff artifactV [] [("a", [5])] (by decide)).2 0 (by decide)⟩

/-! ### C6 -/

theorem sumSizes_ok_of_all_known :
    ∀ l : List (String × ArtifactManifestEntry),
      l.all (fun pe => pe.2.size.isSome) = true → ∃ n, sumSizes l = .ok n := by
  intro l
  induction l with
  | nil => intro _; exact ⟨0, rfl⟩
  | cons hd tl ih =>
    intro h
    rw [List.all_cons, Bool.and_eq_true] at h
    obtain ⟨n, hn⟩ := ih h.2
    cases hs : hd.2.size with
    | none => rw [hs] at h; simp at h
    | some m => exact ⟨m + n, by simp [sumSizes, hs, hn]⟩

/-- A committed artifact holding a reference entry whose size is unknown
(size is nullable for references, spec section 3). -/
def entryNoSize : ArtifactManifestEntry :=
  { path := "r", digest := [7], size := none,
    ref := some (.external "https" "host/x"), local_path := none }

def artifactR : Artifact :=
  { sampleLogged with _manifest := { entries := [("r", entryNoSize)] } }

/-- Claim C6, counterexample: on a committed artifact with an unknown-size
entry, `checkout` deletes the untracked file under the root but then fails
with the `TypeError` from `download`'s unguarded size total
(artifact.py line 1474) instead of returning the root path. -/
theorem checkout_counterexample :
    artifactR._state = ArtifactState.COMMITTED ∧
    artifactR.checkout [] (fun e => e.digest) [("junk", [2])] "root" =
      (.error (.typeError "unsupported operand type for +: int and NoneType"), []) ∧
    (artifactR.checkout [] (fun e => e.digest) [("junk", [2])] "root").1 ≠
      .ok "root" := by
  refine ⟨by decide, by decide, by decide⟩

/-- Claim C6 (amended): on a committed artifact, `checkout(root)` first
deletes exactly the files under the root that have no corresponding
manifest entry (files that do correspond are kept with their bytes) and
then runs `download` on the result; when every manifest entry's size is
known, the download materializes the entries under the root and the root
path is returned.  (When some entry's size is unknown, `download`'s
unguarded size total raises `TypeError` after the deletion pass instead —
see the counterexample.) -/
theorem checkout_deletes_untracked_then_downloads (a : Artifact)
    (suffixes : List String) (fetch : ArtifactManifestEntry → Content)
    (fs : FS) (root : String) (h : a._state ≠ ArtifactState.PENDING) :
    a.checkout suffixes fetch fs root =
      a.download fetch (a.deleteUntracked suffixes fs) root ∧
    (∀ p, findKey (a.deleteUntracked suffixes fs) p =
      if a.trackedPath suffixes p then findKey fs p else none) ∧
    (a._manifest.entries.all (fun pe => pe.2.size.isSome) = true →
      a.checkout suffixes fetch fs root =
        (.ok root,
          a._manifest.entries.foldl (fun acc pe => setKey acc pe.1 (fetch pe.2))
            (a.deleteUntracked suffixes fs))) := by
  refine ⟨?_, ?_, ?_⟩
  · simp [Artifact.checkout, h]
  · intro p
    simpa [Artifact.deleteUntracked] using
      findKey_filter fs (a.trackedPath suffixes) p
  · intro hall
    obtain ⟨n, hn⟩ := sumSizes_ok_of_all_known a._manifest.entries hall
    simp [Artifact.checkout, Artifact.download, h, hn]

/-- Claim C6 witness: a root holding one tracked file `p` and one untracked
file `junk`, against an artifact whose entry sizes are all known; checkout
removes `junk`, keeps `p`, redownloads it, and returns the root. -/
theorem checkout_deletes_untracked_witness :
    (artifactA.checkout [] (fun e => e.digest) [("p", [1]), ("junk", [2])] "root" =
      artifactA.download (fun e => e.digest)
        (artifactA.deleteUntracked [] [("p", [1]), ("junk", [2])]) "root") ∧
    findKey (artifactA.deleteUntracked [] [("p", [1]), ("junk", [2])]) "junk" =
      (if artifactA.trackedPath [] "junk" then
        findKey [("p", [1]), ("junk", [2])] "junk" else none) ∧
    artifactA.trackedPath [] "junk" = false ∧
    artifactA.trackedPath [] "p" = true ∧
    artifactA._manifest.entries.all (fun pe => pe.2.size.isSome) = true ∧
    (artifactA.checkout [] (fun e => e.digest) [("p", [1]), ("junk", [2])] "root" =
      (.ok "root",
        artifactA._manifest.entries.foldl
          (fun acc pe => setKey acc pe.1 pe.2.digest)
          (artifactA.deleteUntracked [] [("p", [1]), ("junk", [2])]))) ∧
    artifactA.checkout [] (fun e => e.digest) [("p", [1]), ("junk", [2])] "root" =
      (.ok "root", [("p", [9])]) :=
  ⟨(checkout_deletes_untracked_then_downloads artifactA [] (fun e => e.digest)
      [("p", [1]), ("junk", [2])] "root" (by decide)).1,
    (checkout_deletes_untracked_then_downloads artifactA [] (fun e => e.digest)
      [("p", [1]), ("junk", [2])] "root" (by decide)).2.1 "junk",
    by decide, by decide, by decide,
    (checkout_deletes_untracked_then_downloads artifactA [] (fun e => e.digest)
      [("p", [1]), ("junk", [2])] "root" (by decide)).2.2 (by decide),
    by decide⟩
